import Mathlib

/-!
Shallow embedding of the plan/program lifecycle core of the Khunpong
repository (src/backend/app/services.py and src/backend/app/main.py).

Python dict payloads are embedded as partial maps from strings to a
`Value` type; the builtins `int()`, `float()`, `len()` and `==` used by
the validators are modelled explicitly.  Timestamps (`datetime`) are
embedded as integer epoch seconds; Python floats as rationals.
-/

/-- A Python value as it occurs in the payload dicts of this code base:
`None`, strings, ints, floats (as rationals) and `datetime` values (as
epoch seconds).  No payload entry of this repository is ever a list, so
list values are not represented; the `[]` alternative of the emptiness
test `v in (None, "", [])` can therefore never fire and is dropped. -/
inductive Value
  | null
  | str (s : String)
  | int (n : Int)
  | rat (q : ℚ)
  | dt (t : Int)
deriving DecidableEq

/-- Python `==` restricted to the values above.  Numbers compare across
`int`/`float`; every other comparison across kinds is `False`. -/
def pyEq : Value → Value → Bool
  | Value.null, Value.null => true
  | Value.str a, Value.str b => a == b
  | Value.int a, Value.int b => a == b
  | Value.int a, Value.rat b => (a : ℚ) == b
  | Value.rat a, Value.int b => a == (b : ℚ)
  | Value.rat a, Value.rat b => a == b
  | Value.dt a, Value.dt b => a == b
  | _, _ => false

/-- Python `len()`: defined on strings, raises (`none`) on the other
value kinds occurring here. -/
def pyLen : Value → Option Nat
  | Value.str s => some s.length
  | _ => none

/-- Digits to a natural number (helper for the `int()`/`float()` models). -/
def digitsToNat (cs : List Char) : Nat :=
  cs.foldl (fun n c => 10 * n + (c.toNat - 48)) 0

/-- Leading sign of a Python numeric literal. -/
def takeSign : List Char → (Int × List Char)
  | '+' :: r => (1, r)
  | '-' :: r => (-1, r)
  | r => (1, r)

/-- A non-empty all-digit run, parsed. -/
def parseNatDigits (cs : List Char) : Option Nat :=
  if cs ≠ [] ∧ cs.all Char.isDigit then some (digitsToNat cs) else none

/-- Python `int(str)` on plain decimal integer literals (optional
whitespace and sign).  Underscore separators are not modelled; no payload
in this development uses them. -/
def parsePyInt (s : String) : Option Int :=
  let (sg, ds) := takeSign s.trim.toList
  (parseNatDigits ds).map (fun n => sg * (n : Int))

/-- The mantissa of a float literal: `digits`, `digits.`, `.digits` or
`digits.digits`. -/
def parseMantissa (cs : List Char) : Option ℚ :=
  match cs.splitOn '.' with
  | [intPart] => (parseNatDigits intPart).map (fun n => (n : ℚ))
  | [intPart, fracPart] =>
      if intPart = [] ∧ fracPart = [] then none
      else if intPart.all Char.isDigit ∧ fracPart.all Char.isDigit then
        some ((digitsToNat intPart : ℚ)
          + (digitsToNat fracPart : ℚ) / ((10 : ℚ) ^ fracPart.length))
      else none
  | _ => none

/-- Python `float(str)` on finite decimal literals with optional exponent.
`inf`/`nan` are not representable in `ℚ` and are treated as non-parsing;
no claim exercises them. -/
def parsePyFloat (s : String) : Option ℚ :=
  let (sg, cs) := takeSign s.trim.toLower.toList
  match cs.splitOn 'e' with
  | [m] => (parseMantissa m).map (fun q => (sg : ℚ) * q)
  | [m, ex] =>
      match parseMantissa m with
      | none => none
      | some q =>
          let (esg, eds) := takeSign ex
          match parseNatDigits eds with
          | none => none
          | some e =>
              some ((sg : ℚ) * (if esg = 1 then q * (10 : ℚ) ^ e
                                else q / (10 : ℚ) ^ e))
  | _ => none

/-- Python `int()` truncation of a float toward zero. -/
def truncRat (q : ℚ) : Int := q.num.tdiv q.den

/-- Python `int(x)` on the embedded values: ints pass through, floats
truncate toward zero, strings parse as integer literals, everything else
raises (`none`). -/
def pyInt : Value → Option Int
  | Value.int n => some n
  | Value.rat q => some (truncRat q)
  | Value.str s => parsePyInt s
  | _ => none

/-- Python `float(x)` on the embedded values. -/
def pyFloat : Value → Option ℚ
  | Value.rat q => some q
  | Value.int n => some (n : ℚ)
  | Value.str s => parsePyFloat s
  | _ => none

/-- Python `str.capitalize()`: first character upper-cased, the rest
lower-cased. -/
def pyCapitalize (s : String) : String :=
  match s.toList with
  | [] => ""
  | c :: rest => String.mk (c.toUpper :: rest.map Char.toLower)

/-- A Python dict payload: `none` means the key is absent. -/
def Payload := String → Option Value

/-- Python `data.get(k)`: `None` when the key is absent. -/
def pyGet (data : Payload) (k : String) : Value :=
  (data k).getD Value.null

/-- Python `data.get(k, d)` with an explicit default. -/
def pyGetD (data : Payload) (k : String) (d : Value) : Value :=
  (data k).getD d

/-- The presence test of the required-field scan:
`field not in data or data[field] in (None, "", [])`. -/
def missingField (data : Payload) (f : String) : Bool :=
  match data f with
  | none => true
  | some v => pyEq v Value.null || pyEq v (Value.str "")

/-- Python `v in xs` for a list of string constants (membership by `==`). -/
def pyMemStr (v : Value) (xs : List String) : Bool :=
  xs.any (fun s => pyEq v (Value.str s))

/-!
## Enumeration constants

`src/backend/app/constants.py` is imported by the source but is not under
`src/`; the enumerated value sets below are modelled from the spec.
-/

/-- Modelled from the spec: `constants.TELESCOPE_LOCATIONS`
(telescopeLocation ∈ \x7bHawaii, Chile\x7d), the module `constants.py` being
absent from the sources. -/
def TELESCOPE_LOCATIONS : List String := ["Hawaii", "Chile"]

/-- Modelled from the spec: `constants.FILE_TYPES` (fileType ∈ \x7bPNG,
JPEG, RAW\x7d). -/
def FILE_TYPES : List String := ["PNG", "JPEG", "RAW"]

/-- Modelled from the spec: `constants.FILE_QUALITIES` (fileQuality ∈
\x7bLow, Fine\x7d). -/
def FILE_QUALITIES : List String := ["Low", "Fine"]

/-- Modelled from the spec: `constants.IMAGE_MODES` (imageMode ∈ \x7bB&W,
Color\x7d). -/
def IMAGE_MODES : List String := ["B&W", "Color"]

/-- Modelled from the spec: `constants.CALIBRATION_UNITS` (calibrationUnit
∈ \x7bArgon, CuAr, ThAr, Xenon\x7d). -/
def CALIBRATION_UNITS : List String := ["Argon", "CuAr", "ThAr", "Xenon"]

/-- Modelled from the spec: `constants.LIGHT_TYPES` (lightType ∈
\x7bCerroPachonSkyEmission, MaunaKeaSkyEmission\x7d). -/
def LIGHT_TYPES : List String := ["CerroPachonSkyEmission", "MaunaKeaSkyEmission"]

/-- Modelled from the spec: `constants.FOLD_MIRROR_TYPES` (foldMirrorType
∈ \x7bCASSEGRAIN_FOCUS, REFLECTIVE_CONVERGING_BEAM\x7d). -/
def FOLD_MIRROR_TYPES : List String := ["CASSEGRAIN_FOCUS", "REFLECTIVE_CONVERGING_BEAM"]

/-- Modelled from the spec: `constants.DIRECTIONS` (telepositionDirection
∈ \x7bNorth, East, West, South\x7d). -/
def DIRECTIONS : List String := ["North", "East", "West", "South"]

/-!
## Data model (src/backend/app/models.py)
-/

/-- `models.StarSystem`: reference table row. -/
structure StarSystem where
  id : Nat
  name : String
  meaning : String
  area_sq_deg : ℚ
  quadrant : String
  latitude_max : Int
  latitude_min : Int
deriving DecidableEq

/-- `models.SciencePlan`: the central entity.  Timestamps are epoch
seconds, `funding` is the Python float embedded as a rational. -/
structure SciencePlan where
  id : Nat
  creator : String
  submitter : String
  funding : ℚ
  objective : String
  star_system_id : Nat
  schedule_start : Int
  schedule_end : Int
  telescope_location : String
  file_type : String
  file_quality : String
  image_mode : String
  exposure : Int
  contrast : Int
  brightness : Int
  saturation : Int
  status : String
  created_at : Int
  updated_at : Int
deriving DecidableEq

/-- `models.ValidationResult`: audit record.  `is_valid` is declared
`bool` with no default, i.e. a required NOT NULL column.  Both endpoint
call sites construct the row without it, so their inserts violate the
constraint and the enclosing commit fails with an IntegrityError. -/
structure ValidationResult where
  plan_id : Nat
  is_valid : Bool
  message : String
  created_at : Int
deriving DecidableEq

/-- `models.ObservingProgram`: derived entity; `status` defaults to
"Pending Review" at construction. -/
structure ObservingProgram where
  id : Nat
  plan_id : Nat
  calibration_unit : String
  light_type : String
  fold_mirror_type : String
  teleposition_degree : ℚ
  teleposition_direction : String
  status : String
  submitted_at : Int
deriving DecidableEq

/-- `plan.model_dump()`: the payload dict of a `SciencePlan` row, one
entry per column. -/
def planPayload (p : SciencePlan) : Payload := fun k =>
  match k with
  | "id" => some (Value.int p.id)
  | "creator" => some (Value.str p.creator)
  | "submitter" => some (Value.str p.submitter)
  | "funding" => some (Value.rat p.funding)
  | "objective" => some (Value.str p.objective)
  | "star_system_id" => some (Value.int p.star_system_id)
  | "schedule_start" => some (Value.dt p.schedule_start)
  | "schedule_end" => some (Value.dt p.schedule_end)
  | "telescope_location" => some (Value.str p.telescope_location)
  | "file_type" => some (Value.str p.file_type)
  | "file_quality" => some (Value.str p.file_quality)
  | "image_mode" => some (Value.str p.image_mode)
  | "exposure" => some (Value.int p.exposure)
  | "contrast" => some (Value.int p.contrast)
  | "brightness" => some (Value.int p.brightness)
  | "saturation" => some (Value.int p.saturation)
  | "status" => some (Value.str p.status)
  | "created_at" => some (Value.dt p.created_at)
  | "updated_at" => some (Value.dt p.updated_at)
  | _ => none

/-!
## Field validator (src/backend/app/services.py, validate_science_plan_fields)

The error list is assembled as the concatenation of the checks in source
order: required-field scan, objective length, the four enum checks, the
schedule check, the four dial checks, the funding parse check.
-/

def REQUIRED_PLAN_FIELDS : List String :=
  ["creator", "submitter", "funding", "objective",
   "star_system_id",
   "schedule_start", "schedule_end",
   "telescope_location",
   "file_type", "file_quality",
   "image_mode", "exposure", "contrast",
   "brightness", "saturation"]

def missingErrors (data : Payload) : List String :=
  REQUIRED_PLAN_FIELDS.filterMap (fun f =>
    if missingField data f then some ("Missing required field: " ++ f) else none)

def enumErrors (data : Payload) : List String :=
  (if ¬ pyMemStr (pyGet data "telescope_location") TELESCOPE_LOCATIONS
   then ["Invalid telescope location."] else []) ++
  (if ¬ pyMemStr (pyGet data "file_type") FILE_TYPES
   then ["Invalid file type."] else []) ++
  (if ¬ pyMemStr (pyGet data "file_quality") FILE_QUALITIES
   then ["Invalid file quality."] else []) ++
  (if ¬ pyMemStr (pyGet data "image_mode") IMAGE_MODES
   then ["Invalid image mode."] else [])

def scheduleErrors (data : Payload) : List String :=
  match pyGet data "schedule_start", pyGet data "schedule_end" with
  | Value.dt s, Value.dt e =>
      if s ≥ e then ["Schedule start must be before schedule end."] else []
  | _, _ => ["Invalid schedule format."]

def DIAL_FIELDS : List String := ["exposure", "contrast", "brightness", "saturation"]

/-- One iteration of the dial loop: `int(data.get(field))` under
`try`/`except`, then the range test. -/
def dialCheck (data : Payload) (f : String) : List String :=
  match pyInt (pyGet data f) with
  | some v =>
      if v < 0 ∨ v > 50 then [pyCapitalize f ++ " must be between 0 and 50."] else []
  | none => [pyCapitalize f ++ " must be an integer."]

def dialErrors (data : Payload) : List String :=
  DIAL_FIELDS.flatMap (dialCheck data)

def fundingErrors (data : Payload) : List String :=
  match pyFloat (pyGet data "funding") with
  | some _ => []
  | none => ["Funding must be a decimal number."]

/-- The full error list once the objective length (`objLen`) is known. -/
def planFieldErrors (data : Payload) (objLen : Nat) : List String :=
  missingErrors data ++
  (if objLen > 500 then ["Objective must be <= 500 characters."] else []) ++
  enumErrors data ++
  scheduleErrors data ++
  dialErrors data ++
  fundingErrors data

/-- `services.validate_science_plan_fields`: returns
`(len(errors) == 0, errors)`.  `len(data.get("objective", ""))` raises a
`TypeError` when the present value is not a string; that crash is embedded
as `none`. -/
def validate_science_plan_fields (data : Payload) : Option (Bool × List String) :=
  (pyLen (pyGetD data "objective" (Value.str ""))).map (fun objLen =>
    let errors := planFieldErrors data objLen
    (errors.isEmpty, errors))

/-!
## Simulation advisor and official validation (services.py)
-/

def warnExposureColor : String :=
  "Warning: High exposure with Color mode may cause sensor saturation."

def warnClarity : String :=
  "Warning: Very low brightness and contrast may reduce image clarity."

def warnDuration : String :=
  "Warning: Observation window exceeds 12 hours. Telescope allocation may be restricted."

def warnFunding : String :=
  "Warning: Funding below recommended operational threshold."

def simOkMsg : String :=
  "Simulation successful. No technical issues detected."

/-- The duration of a plan's observation window in hours
(`(schedule_end - schedule_start).total_seconds() / 3600`). -/
def durationHours (plan : SciencePlan) : ℚ :=
  ((plan.schedule_end - plan.schedule_start : Int) : ℚ) / 3600

/-- `services.run_virtual_telescope_test`: field validation folded into
the feedback, then the four independent heuristic advisories, then the
fallback success message; always returns `ok = True`. -/
def run_virtual_telescope_test (plan : SciencePlan) : Option (Bool × List String) :=
  (validate_science_plan_fields (planPayload plan)).map (fun r =>
    let feedback := if r.1 then [] else r.2
    let feedback := feedback ++
      (if plan.exposure > 40 ∧ plan.image_mode = "Color" then [warnExposureColor] else [])
    let feedback := feedback ++
      (if plan.brightness < 5 ∧ plan.contrast < 5 then [warnClarity] else [])
    let feedback := feedback ++
      (if durationHours plan > 12 then [warnDuration] else [])
    let feedback := feedback ++
      (if plan.funding < 1000 then [warnFunding] else [])
    let feedback := if feedback.isEmpty then [simOkMsg] else feedback
    (true, feedback))

/-- `services.run_official_validation`: field violations short-circuit,
then `exposure > 45`, then `funding < 500`, else approval. -/
def run_official_validation (plan : SciencePlan) : Option (Bool × List String) :=
  (validate_science_plan_fields (planPayload plan)).map (fun r =>
    if ¬ r.1 then (false, r.2)
    else if plan.exposure > 45 then
      (false, ["Exposure exceeds maximum allowed operational limit (45)."])
    else if plan.funding < 500 then
      (false, ["Funding below minimum requirement for approval."])
    else
      (true, ["Plan meets all validation criteria."]))

/-!
## Observing-program field validator (services.py)
-/

def REQUIRED_PROGRAM_FIELDS : List String :=
  ["calibration_unit",
   "light_type",
   "fold_mirror_type",
   "teleposition_degree",
   "teleposition_direction"]

def programMissingErrors (data : Payload) : List String :=
  REQUIRED_PROGRAM_FIELDS.filterMap (fun f =>
    if missingField data f then some ("Missing required field: " ++ f) else none)

def degreeErrors (data : Payload) : List String :=
  match pyFloat (pyGet data "teleposition_degree") with
  | some d => if d < 0 ∨ d > 360 then ["Teleposition degree must be between 0 and 360."] else []
  | none => ["Teleposition degree must be numeric."]

/-- `services.validate_observing_program_fields`. -/
def validate_observing_program_fields (data : Payload) : Bool × List String :=
  let errors := programMissingErrors data ++
    (if ¬ pyMemStr (pyGet data "calibration_unit") CALIBRATION_UNITS
     then ["Invalid calibration unit."] else []) ++
    (if ¬ pyMemStr (pyGet data "light_type") LIGHT_TYPES
     then ["Invalid light type."] else []) ++
    (if ¬ pyMemStr (pyGet data "fold_mirror_type") FOLD_MIRROR_TYPES
     then ["Invalid fold mirror type."] else []) ++
    (if ¬ pyMemStr (pyGet data "teleposition_direction") DIRECTIONS
     then ["Invalid teleposition direction."] else []) ++
    degreeErrors data
  (errors.isEmpty, errors)

/-!
## Persisted store and lifecycle operations (src/backend/app/main.py)

Each POST endpoint is embedded as a function from the store to either an
error (the request aborts with no commit) or the updated store.  `now`
stands for `datetime.utcnow()`; fresh primary keys are passed explicitly.
-/

/-- The persisted record store. -/
structure DB where
  star_systems : List StarSystem
  plans : List SciencePlan
  results : List ValidationResult
  programs : List ObservingProgram
deriving DecidableEq

/-- How a request ends without a commit: 404, a 400 status-guard
`HTTPException`, a re-rendered form carrying field errors, a commit
aborted by a database IntegrityError (surfacing as an unhandled 500), or
any other uncaught Python exception. -/
inductive HErr
  | notFound
  | statusGuard
  | formErrors (errors : List String)
  | integrityError
  | pyError
deriving DecidableEq

def getPlan (db : DB) (planId : Nat) : Option SciencePlan :=
  db.plans.find? (fun p => p.id == planId)

def getProgram (db : DB) (programId : Nat) : Option ObservingProgram :=
  db.programs.find? (fun p => p.id == programId)

def findStar (db : DB) (name : String) : Option StarSystem :=
  db.star_systems.find? (fun s => s.name == name)

/-- Persist an updated plan row (replace by primary key). -/
def setPlan (db : DB) (p : SciencePlan) : DB :=
  { db with plans := db.plans.map (fun q => if q.id = p.id then p else q) }

/-- The typed form fields of the create/edit plan endpoints, after
FastAPI's `Form(...)` coercions; the schedule fields carry the result of
`datetime.fromisoformat`. -/
structure PlanForm where
  creator : String
  submitter : String
  funding : ℚ
  objective : String
  star_system : String
  schedule_start : Int
  schedule_end : Int
  telescope_location : String
  file_type : String
  file_quality : String
  image_mode : String
  exposure : Int
  contrast : Int
  brightness : Int
  saturation : Int
deriving DecidableEq

/-- The `data` dict built in `create_plan`/`edit_plan`:
`star_system_id` is `star.id if star else None`. -/
def formPayload (form : PlanForm) (starId : Option Nat) : Payload := fun k =>
  match k with
  | "creator" => some (Value.str form.creator)
  | "submitter" => some (Value.str form.submitter)
  | "funding" => some (Value.rat form.funding)
  | "objective" => some (Value.str form.objective)
  | "star_system_id" =>
      some (match starId with
            | some i => Value.int i
            | none => Value.null)
  | "schedule_start" => some (Value.dt form.schedule_start)
  | "schedule_end" => some (Value.dt form.schedule_end)
  | "telescope_location" => some (Value.str form.telescope_location)
  | "file_type" => some (Value.str form.file_type)
  | "file_quality" => some (Value.str form.file_quality)
  | "image_mode" => some (Value.str form.image_mode)
  | "exposure" => some (Value.int form.exposure)
  | "contrast" => some (Value.int form.contrast)
  | "brightness" => some (Value.int form.brightness)
  | "saturation" => some (Value.int form.saturation)
  | _ => none

/-- The plan row inserted by `create_plan` (`SciencePlan(**data,
status="DRAFT")`). -/
def mkPlan (form : PlanForm) (starId : Nat) (newId : Nat) (now : Int) : SciencePlan :=
  { id := newId
    creator := form.creator
    submitter := form.submitter
    funding := form.funding
    objective := form.objective
    star_system_id := starId
    schedule_start := form.schedule_start
    schedule_end := form.schedule_end
    telescope_location := form.telescope_location
    file_type := form.file_type
    file_quality := form.file_quality
    image_mode := form.image_mode
    exposure := form.exposure
    contrast := form.contrast
    brightness := form.brightness
    saturation := form.saturation
    status := "DRAFT"
    created_at := now
    updated_at := now }

/-- `main.create_plan` (POST /plans/new). -/
def create_plan (form : PlanForm) (now : Int) (newId : Nat) (db : DB) : Except HErr DB :=
  match findStar db form.star_system with
  | none =>
      match validate_science_plan_fields (formPayload form none) with
      | none => Except.error HErr.pyError
      | some r =>
          Except.error (HErr.formErrors
            ("Invalid star system selected." :: (if r.1 then [] else r.2)))
  | some star =>
      match validate_science_plan_fields (formPayload form (some star.id)) with
      | none => Except.error HErr.pyError
      | some r =>
          if r.1 then
            Except.ok { db with plans := db.plans ++ [mkPlan form star.id newId now] }
          else Except.error (HErr.formErrors r.2)

/-- The in-place update performed by `main.edit_plan` on success: every
`data` key is written back, then `status = "DRAFT"` and `updated_at`. -/
def applyEdit (plan : SciencePlan) (form : PlanForm) (starId : Nat) (now : Int) : SciencePlan :=
  { plan with
    creator := form.creator
    submitter := form.submitter
    funding := form.funding
    objective := form.objective
    star_system_id := starId
    schedule_start := form.schedule_start
    schedule_end := form.schedule_end
    telescope_location := form.telescope_location
    file_type := form.file_type
    file_quality := form.file_quality
    image_mode := form.image_mode
    exposure := form.exposure
    contrast := form.contrast
    brightness := form.brightness
    saturation := form.saturation
    status := "DRAFT"
    updated_at := now }

/-- `main.edit_plan` (POST /plans/\x7bplan_id\x7d/edit). -/
def edit_plan (planId : Nat) (form : PlanForm) (now : Int) (db : DB) : Except HErr DB :=
  match getPlan db planId with
  | none => Except.error HErr.notFound
  | some plan =>
      if plan.status ≠ "DRAFT" ∧ plan.status ≠ "INVALID" then
        Except.error HErr.statusGuard
      else
        match findStar db form.star_system with
        | none =>
            match validate_science_plan_fields (formPayload form none) with
            | none => Except.error HErr.pyError
            | some r =>
                Except.error (HErr.formErrors
                  ("Invalid star system selected." :: (if r.1 then [] else r.2)))
        | some star =>
            match validate_science_plan_fields (formPayload form (some star.id)) with
            | none => Except.error HErr.pyError
            | some r =>
                if r.1 then
                  Except.ok (setPlan db (applyEdit plan form star.id now))
                else Except.error (HErr.formErrors r.2)

/-- `main.delete_plan` (POST /plans/\x7bplan_id\x7d/delete): guard, then
cascade delete of results, programs and the plan. -/
def delete_plan (planId : Nat) (db : DB) : Except HErr DB :=
  match getPlan db planId with
  | none => Except.error HErr.notFound
  | some plan =>
      if plan.status ≠ "DRAFT" ∧ plan.status ≠ "INVALID" then
        Except.error HErr.statusGuard
      else
        Except.ok
          { db with
            plans := db.plans.filter (fun p => p.id != planId)
            results := db.results.filter (fun r => r.plan_id != planId)
            programs := db.programs.filter (fun p => p.plan_id != planId) }

/-- `main.simulate_plan` (POST /plans/\x7bplan_id\x7d/simulate): no status
guard; the advisor's messages are inserted as `ValidationResult` rows, but
the constructor call omits the required NOT NULL `is_valid` column, so
whenever at least one message is inserted the commit fails with an
IntegrityError and nothing persists (the request ends in an unhandled
500); with an empty message list nothing would be inserted and the empty
commit would succeed with the store unchanged. -/
def simulate_plan (planId : Nat) (_now : Int) (db : DB) : Except HErr DB :=
  match getPlan db planId with
  | none => Except.error HErr.notFound
  | some plan =>
      match run_virtual_telescope_test plan with
      | none => Except.error HErr.pyError
      | some r =>
          if r.2.isEmpty then Except.ok db
          else Except.error HErr.integrityError

/-- `main.validate_plan` (POST /plans/\x7bplan_id\x7d/validate): no status
guard; the verdict is written to the plan row and every "[Official] "
message is inserted as a `ValidationResult` in the same commit, but the
constructor call omits the required NOT NULL `is_valid` column, so with a
non-empty message list the whole commit — the status change included —
fails with an IntegrityError and nothing persists; only with an empty
message list would the status change alone commit. -/
def validate_plan (planId : Nat) (now : Int) (db : DB) : Except HErr DB :=
  match getPlan db planId with
  | none => Except.error HErr.notFound
  | some plan =>
      match run_official_validation plan with
      | none => Except.error HErr.pyError
      | some r =>
          if r.2.isEmpty then
            Except.ok (setPlan db { plan with
              status := if r.1 then "VALID" else "INVALID"
              updated_at := now })
          else Except.error HErr.integrityError

/-- The typed form fields of the submit endpoint. -/
structure ProgramForm where
  calibration_unit : String
  light_type : String
  fold_mirror_type : String
  teleposition_degree : ℚ
  teleposition_direction : String
deriving DecidableEq

/-- The `data` dict built in `main.submit_program`. -/
def programPayload (form : ProgramForm) : Payload := fun k =>
  match k with
  | "calibration_unit" => some (Value.str form.calibration_unit)
  | "light_type" => some (Value.str form.light_type)
  | "fold_mirror_type" => some (Value.str form.fold_mirror_type)
  | "teleposition_degree" => some (Value.rat form.teleposition_degree)
  | "teleposition_direction" => some (Value.str form.teleposition_direction)
  | _ => none

/-- The program row inserted by `submit_program`
(`ObservingProgram(plan_id=plan_id, **data)`, status defaulting to
"Pending Review"). -/
def mkProgram (planId : Nat) (form : ProgramForm) (newId : Nat) (now : Int) : ObservingProgram :=
  { id := newId
    plan_id := planId
    calibration_unit := form.calibration_unit
    light_type := form.light_type
    fold_mirror_type := form.fold_mirror_type
    teleposition_degree := form.teleposition_degree
    teleposition_direction := form.teleposition_direction
    status := "Pending Review"
    submitted_at := now }

/-- `main.submit_program` (POST /plans/\x7bplan_id\x7d/submit): requires the
plan to be VALID; on success the program row and the VALID → SUBMITTED
transition are committed together. -/
def submit_program (planId : Nat) (form : ProgramForm) (now : Int) (newId : Nat)
    (db : DB) : Except HErr DB :=
  match getPlan db planId with
  | none => Except.error HErr.notFound
  | some plan =>
      if plan.status ≠ "VALID" then Except.error HErr.statusGuard
      else
        if (validate_observing_program_fields (programPayload form)).1 then
          Except.ok
            { setPlan db { plan with status := "SUBMITTED", updated_at := now } with
              programs := db.programs ++ [mkProgram planId form newId now] }
        else
          Except.error (HErr.formErrors
            (validate_observing_program_fields (programPayload form)).2)

/-- `main.execute_program` (POST /programs/\x7bprogram_id\x7d/execute): 404
when absent, otherwise unconditionally set status "Completed". -/
def execute_program (programId : Nat) (db : DB) : Except HErr DB :=
  match getProgram db programId with
  | none => Except.error HErr.notFound
  | some prog =>
      Except.ok
        { db with
          programs := db.programs.map (fun q =>
            if q.id = prog.id then { q with status := "Completed" } else q) }

/-- The state-mutating requests of the workflow, as one step alphabet. -/
inductive Op
  | createPlan (form : PlanForm) (newId : Nat)
  | editPlan (planId : Nat) (form : PlanForm)
  | deletePlan (planId : Nat)
  | simulatePlan (planId : Nat)
  | validatePlan (planId : Nat)
  | submitProgram (planId : Nat) (form : ProgramForm) (newId : Nat)
  | executeProgram (programId : Nat)

/-- One request against the store. -/
def step (op : Op) (now : Int) (db : DB) : Except HErr DB :=
  match op with
  | Op.createPlan form newId => create_plan form now newId db
  | Op.editPlan planId form => edit_plan planId form now db
  | Op.deletePlan planId => delete_plan planId db
  | Op.simulatePlan planId => simulate_plan planId now db
  | Op.validatePlan planId => validate_plan planId now db
  | Op.submitProgram planId form newId => submit_program planId form now newId db
  | Op.executeProgram programId => execute_program programId db

/-- The legal plan statuses. -/
def PLAN_STATUSES : List String := ["DRAFT", "INVALID", "VALID", "SUBMITTED"]

deriving instance DecidableEq for Except

/-!
## Concrete fixtures for counterexamples and witnesses
-/

/-- A reference star system row (test fixture). -/
def cStar : StarSystem :=
  { id := 1, name := "Orion", meaning := "Orion (the Hunter)",
    area_sq_deg := 594, quadrant := "NQ1", latitude_max := 85, latitude_min := 75 }

/-- A fully valid plan: every field check passes and both operational
limits are met. -/
def basePlan : SciencePlan :=
  { id := 1, creator := "alice", submitter := "bob", funding := 2000,
    objective := "study", star_system_id := 1,
    schedule_start := 0, schedule_end := 3600,
    telescope_location := "Hawaii", file_type := "PNG", file_quality := "Low",
    image_mode := "B&W", exposure := 30, contrast := 10, brightness := 10,
    saturation := 10, status := "DRAFT", created_at := 0, updated_at := 0 }

/-- A store holding `basePlan` with status SUBMITTED. -/
def cDBsub : DB :=
  { star_systems := [cStar], plans := [{ basePlan with status := "SUBMITTED" }],
    results := [], programs := [] }

/-- A program row that is already Completed. -/
def cProg : ObservingProgram :=
  { id := 1, plan_id := 1, calibration_unit := "Argon",
    light_type := "CerroPachonSkyEmission", fold_mirror_type := "CASSEGRAIN_FOCUS",
    teleposition_degree := 90, teleposition_direction := "North",
    status := "Completed", submitted_at := 0 }

/-- A store holding the Completed program. -/
def cDBprog : DB :=
  { star_systems := [cStar], plans := [{ basePlan with status := "SUBMITTED" }],
    results := [], programs := [cProg] }

/-- The status of a plan row in a store. -/
def statusOf (db : DB) (planId : Nat) : Option String :=
  (getPlan db planId).map (fun p => p.status)

def ENUM_CHECKS : List (String × String) :=
  [("telescope_location", "Invalid telescope location."),
   ("file_type", "Invalid file type."),
   ("file_quality", "Invalid file quality."),
   ("image_mode", "Invalid image mode.")]

/-!
## Test fixtures used in counterexamples and witnesses
-/

/-- A plan whose only deviation from `basePlan` is a negative funding. -/
def cPlanNeg : SciencePlan := { basePlan with funding := -1 }

/-- The payload of `basePlan` with the `funding` key removed. -/
def cDataNoFund : Payload := fun k =>
  if k = "funding" then none else planPayload basePlan k

/-- A plan with two dials out of range at once. -/
def cPlanDials : SciencePlan := { basePlan with exposure := -1, contrast := 51 }

/-- The payload of `basePlan` with the `telescope_location` key removed. -/
def cData10 : Payload := fun k =>
  if k = "telescope_location" then none else planPayload basePlan k

/-- The exposure-limit scenario of the spec: exposure 46, funding 2000. -/
def cPlan46 : SciencePlan := { basePlan with exposure := 46 }

/-- The simulation scenario of the spec: exposure 42 with Color mode. -/
def cPlanSim : SciencePlan := { basePlan with exposure := 42, image_mode := "Color" }

/-- A well-formed observing-program form. -/
def cForm : ProgramForm :=
  { calibration_unit := "Argon", light_type := "CerroPachonSkyEmission",
    fold_mirror_type := "CASSEGRAIN_FOCUS", teleposition_degree := 90,
    teleposition_direction := "North" }

/-- A well-formed plan form matching `basePlan`. -/
def cPlanForm : PlanForm :=
  { creator := "alice", submitter := "bob", funding := 2000, objective := "study",
    star_system := "Orion", schedule_start := 0, schedule_end := 3600,
    telescope_location := "Hawaii", file_type := "PNG", file_quality := "Low",
    image_mode := "B&W", exposure := 30, contrast := 10, brightness := 10,
    saturation := 10 }

/-- The feedback list of the advisor with the field-validation verdict and
the duration already evaluated. -/
def advisoryFeedback (plan : SciencePlan) (ok : Bool) (errs : List String) (d : ℚ) :
    List String :=
  let feedback := if ok then [] else errs
  let feedback := feedback ++
    (if plan.exposure > 40 ∧ plan.image_mode = "Color" then [warnExposureColor] else [])
  let feedback := feedback ++
    (if plan.brightness < 5 ∧ plan.contrast < 5 then [warnClarity] else [])
  let feedback := feedback ++ (if d > 12 then [warnDuration] else [])
  let feedback := feedback ++ (if plan.funding < 1000 then [warnFunding] else [])
  if feedback.isEmpty then [simOkMsg] else feedback

/-!
## Shared lemmas
-/

theorem find?_replace_plan (l : List SciencePlan) (i : Nat) (plan p' : SciencePlan)
    (h : l.find? (fun p => p.id == i) = some plan) (hid : p'.id = plan.id) :
    (l.map (fun q => if q.id = p'.id then p' else q)).find? (fun p => p.id == i) = some p' := by
  have hpid : plan.id = i := by simpa using List.find?_some h
  induction l with
  | nil => simp at h
  | cons q qs ih =>
      rcases List.find?_cons_eq_some.mp h with ⟨hpq, rfl⟩ | ⟨hnpq, hrest⟩
      · have hq : q.id = i := by simpa using hpq
        have hrepl : (if q.id = p'.id then p' else q) = p' := if_pos hid.symm
        rw [List.map_cons, hrepl]
        exact List.find?_cons_eq_some.mpr (Or.inl ⟨by simp [hid, hpid], rfl⟩)
      · have hq : ¬ q.id = i := by simpa using hnpq
        have hqp : ¬ q.id = p'.id := fun heq => hq (heq.trans (hid.trans hpid))
        have hrepl : (if q.id = p'.id then p' else q) = q := if_neg hqp
        rw [List.map_cons, hrepl]
        exact List.find?_cons_eq_some.mpr (Or.inr ⟨by simpa using hq, ih hrest⟩)

theorem find?_complete_prog (l : List ObservingProgram) (i : Nat) (pr : ObservingProgram)
    (h : l.find? (fun p => p.id == i) = some pr) :
    (l.map (fun q => if q.id = pr.id then { q with status := "Completed" } else q)).find?
      (fun p => p.id == i) = some { pr with status := "Completed" } := by
  have hpid : pr.id = i := by simpa using List.find?_some h
  induction l with
  | nil => simp at h
  | cons q qs ih =>
      rcases List.find?_cons_eq_some.mp h with ⟨hpq, rfl⟩ | ⟨hnpq, hrest⟩
      · have hrepl : (if q.id = q.id then { q with status := "Completed" } else q) =
            { q with status := "Completed" } := if_pos rfl
        rw [List.map_cons, hrepl]
        exact List.find?_cons_eq_some.mpr (Or.inl ⟨by simpa using hpq, rfl⟩)
      · have hq : ¬ q.id = i := by simpa using hnpq
        have hqp : ¬ q.id = pr.id := fun heq => hq (heq.trans hpid)
        have hrepl : (if q.id = pr.id then { q with status := "Completed" } else q) = q :=
          if_neg hqp
        rw [List.map_cons, hrepl]
        exact List.find?_cons_eq_some.mpr (Or.inr ⟨by simpa using hq, ih hrest⟩)

theorem getPlan_setPlan (db : DB) (planId : Nat) (plan p' : SciencePlan)
    (h : getPlan db planId = some plan) (hid : p'.id = plan.id) :
    getPlan (setPlan db p') planId = some p' :=
  find?_replace_plan db.plans planId plan p' h hid
theorem validate_eq_some (data : Payload) (ok : Bool) (errs : List String)
    (h : validate_science_plan_fields data = some (ok, errs)) :
    ∃ n, pyLen (pyGetD data "objective" (Value.str "")) = some n ∧
      errs = planFieldErrors data n ∧ ok = errs.isEmpty := by
  unfold validate_science_plan_fields at h
  rcases hlen : pyLen (pyGetD data "objective" (Value.str "")) with _ | n
  · rw [hlen] at h; simp at h
  · rw [hlen] at h
    simp only [Option.map_some] at h
    injection h with h
    refine ⟨n, rfl, ?_, ?_⟩
    · exact (congrArg Prod.snd h).symm
    · have h1 := congrArg Prod.fst h
      have h2 := congrArg Prod.snd h
      simp at h1 h2
      rw [← h1, h2]

theorem mem_missingErrors (data : Payload) (m : String) (h : m ∈ missingErrors data) :
    ∃ f, f ∈ REQUIRED_PLAN_FIELDS ∧ missingField data f = true ∧
      m = "Missing required field: " ++ f := by
  unfold missingErrors at h
  rw [List.mem_filterMap] at h
  obtain ⟨f, hf, hm⟩ := h
  by_cases hmiss : missingField data f
  · rw [if_pos hmiss] at hm
    exact ⟨f, hf, hmiss, (Option.some.inj hm).symm⟩
  · rw [if_neg hmiss] at hm
    exact absurd hm (by simp)

theorem missingErrors_intro (data : Payload) (f : String)
    (hf : f ∈ REQUIRED_PLAN_FIELDS) (hmiss : missingField data f = true) :
    ("Missing required field: " ++ f) ∈ missingErrors data := by
  unfold missingErrors
  rw [List.mem_filterMap]
  exact ⟨f, hf, by rw [if_pos hmiss]⟩

theorem mem_enumErrors (data : Payload) (m : String) (h : m ∈ enumErrors data) :
    m = "Invalid telescope location." ∨ m = "Invalid file type." ∨
    m = "Invalid file quality." ∨ m = "Invalid image mode." := by
  unfold enumErrors at h
  simp only [List.mem_append] at h
  rcases h with ((h | h) | h) | h <;>
    [skip; skip; skip; skip] <;>
    · split at h <;> simp_all

theorem mem_scheduleErrors (data : Payload) (m : String) (h : m ∈ scheduleErrors data) :
    m = "Schedule start must be before schedule end." ∨ m = "Invalid schedule format." := by
  unfold scheduleErrors at h
  split at h
  · split at h <;> simp_all
  · simp_all

theorem mem_dialCheck (data : Payload) (f : String) (m : String) (h : m ∈ dialCheck data f) :
    m = pyCapitalize f ++ " must be between 0 and 50." ∨
    m = pyCapitalize f ++ " must be an integer." := by
  unfold dialCheck at h
  split at h
  · split at h <;> simp_all
  · simp_all

theorem dialCheck_int (data : Payload) (f : String) (v : Int)
    (h : pyGet data f = Value.int v) :
    dialCheck data f =
      if v < 0 ∨ v > 50 then [pyCapitalize f ++ " must be between 0 and 50."] else [] := by
  unfold dialCheck
  rw [h]
  rfl

theorem mem_dialErrors (data : Payload) (m : String) (h : m ∈ dialErrors data) :
    ∃ f, f ∈ DIAL_FIELDS ∧ m ∈ dialCheck data f := by
  unfold dialErrors at h
  rw [List.mem_flatMap] at h
  obtain ⟨f, hf, hm⟩ := h
  exact ⟨f, hf, hm⟩

theorem dialErrors_intro (data : Payload) (f : String) (m : String)
    (hf : f ∈ DIAL_FIELDS) (hm : m ∈ dialCheck data f) : m ∈ dialErrors data := by
  unfold dialErrors
  rw [List.mem_flatMap]
  exact ⟨f, hf, hm⟩

theorem mem_fundingErrors (data : Payload) (m : String) (h : m ∈ fundingErrors data) :
    pyFloat (pyGet data "funding") = none ∧ m = "Funding must be a decimal number." := by
  unfold fundingErrors at h
  split at h <;> simp_all
theorem fundingMsg_mem_iff (data : Payload) (n : Nat) :
    "Funding must be a decimal number." ∈ planFieldErrors data n ↔
      pyFloat (pyGet data "funding") = none := by
  constructor
  · intro h
    unfold planFieldErrors at h
    simp only [List.mem_append] at h
    rcases h with ((((h | h) | h) | h) | h) | h
    · obtain ⟨f, hf, _, hm⟩ := mem_missingErrors _ _ h
      fin_cases hf <;> exact absurd hm (by decide)
    · split at h <;> simp_all
    · rcases mem_enumErrors _ _ h with h | h | h | h <;> exact absurd h (by decide)
    · rcases mem_scheduleErrors _ _ h with h | h <;> exact absurd h (by decide)
    · obtain ⟨f, hf, hm⟩ := mem_dialErrors _ _ h
      fin_cases hf <;>
        rcases mem_dialCheck _ _ _ hm with h | h <;> exact absurd h (by decide)
    · exact (mem_fundingErrors _ _ h).1
  · intro h
    unfold planFieldErrors
    simp only [List.mem_append]
    right
    unfold fundingErrors
    rw [h]
    simp
theorem betweenMsg_mem_intro (data : Payload) (f : String) (v : Int) (n : Nat)
    (hf : f ∈ DIAL_FIELDS) (hv : pyGet data f = Value.int v) (hcond : v < 0 ∨ v > 50) :
    (pyCapitalize f ++ " must be between 0 and 50.") ∈ planFieldErrors data n := by
  unfold planFieldErrors
  simp only [List.mem_append]
  refine Or.inl (Or.inr (dialErrors_intro data f _ hf ?_))
  rw [dialCheck_int data f v hv, if_pos hcond]
  simp

theorem betweenMsg_mem_iff (data : Payload) (f : String) (v : Int) (n : Nat)
    (hf : f ∈ DIAL_FIELDS) (hv : pyGet data f = Value.int v) :
    (pyCapitalize f ++ " must be between 0 and 50.") ∈ planFieldErrors data n ↔
      (v < 0 ∨ v > 50) := by
  fin_cases hf <;>
  · constructor
    · intro h
      unfold planFieldErrors at h
      simp only [List.mem_append] at h
      rcases h with ((((h | h) | h) | h) | h) | h
      · obtain ⟨g, hg, _, hm⟩ := mem_missingErrors _ _ h
        fin_cases hg <;> exact absurd hm (by decide)
      · split at h
        · exact absurd (List.mem_singleton.mp h) (by decide)
        · simp at h
      · rcases mem_enumErrors _ _ h with h | h | h | h <;> exact absurd h (by decide)
      · rcases mem_scheduleErrors _ _ h with h | h <;> exact absurd h (by decide)
      · obtain ⟨g, hg, hm⟩ := mem_dialErrors _ _ h
        fin_cases hg <;>
          first
            | (rw [dialCheck_int _ _ _ hv] at hm
               revert hm
               split
               · intro _
                 assumption
               · intro hm
                 simp at hm)
            | (rcases mem_dialCheck _ _ _ hm with hq | hq <;> exact absurd hq (by decide))
      · exact absurd (mem_fundingErrors _ _ h).2 (by decide)
    · intro hcond
      exact betweenMsg_mem_intro data _ v n (by decide) hv hcond

/-- The four enum-checked plan fields paired with their invalid-value
messages, in source order. -/

theorem missingField_not_enum (data : Payload) (f : String) (xs : List String)
    (h : missingField data f = true) (hxs : ¬ "" ∈ xs) :
    pyMemStr (pyGet data f) xs = false := by
  unfold missingField at h
  unfold pyGet
  cases hdf : data f with
  | none =>
      simp only [hdf, Option.getD_none]
      simp [pyMemStr, pyEq]
  | some v =>
      rw [hdf] at h
      simp only [hdf, Option.getD_some]
      cases v with
      | null => simp [pyMemStr, pyEq]
      | str s =>
          simp only [pyEq, Bool.or_eq_true, beq_iff_eq] at h
          rcases h with h | h
          · exact absurd h (by simp)
          · subst h
            simp [pyMemStr, pyEq]
            intro t ht
            exact fun heq => hxs (heq ▸ ht)
      | int n => simp [pyEq] at h
      | rat q => simp [pyEq] at h
      | dt t => simp [pyEq] at h

theorem step_status_invariant : ∀ (op : Op) (now : Int) (db db' : DB),
    (∀ p ∈ db.plans, p.status ∈ PLAN_STATUSES) →
    step op now db = Except.ok db' →
    ∀ p ∈ db'.plans, p.status ∈ PLAN_STATUSES := by
  intro op now db db' hinv hstep p hp
  cases op with
  | createPlan form newId =>
      simp only [step] at hstep
      unfold create_plan at hstep
      repeat' split at hstep
      all_goals simp at hstep
      all_goals
        subst hstep
        rcases List.mem_append.mp hp with hold | hnew
        · exact hinv p hold
        · rw [List.mem_singleton.mp hnew]
          exact (by decide : ("DRAFT" : String) ∈ PLAN_STATUSES)
  | editPlan planId form =>
      simp only [step] at hstep
      unfold edit_plan at hstep
      repeat' split at hstep
      all_goals simp at hstep
      all_goals
        subst hstep
        unfold setPlan at hp
        simp only at hp
        rcases List.mem_map.mp hp with ⟨q, hq, heq⟩
        split at heq
        · rw [← heq]
          exact (by decide : ("DRAFT" : String) ∈ PLAN_STATUSES)
        · rw [← heq]
          exact hinv q hq
  | deletePlan planId =>
      simp only [step] at hstep
      unfold delete_plan at hstep
      repeat' split at hstep
      all_goals simp at hstep
      all_goals
        subst hstep
        exact hinv p (List.mem_of_mem_filter hp)
  | simulatePlan planId =>
      simp only [step] at hstep
      unfold simulate_plan at hstep
      repeat' split at hstep
      all_goals simp at hstep
      all_goals
        subst hstep
        exact hinv p hp
  | validatePlan planId =>
      simp only [step] at hstep
      unfold validate_plan at hstep
      repeat' split at hstep
      all_goals simp at hstep
      all_goals
        subst hstep
        unfold setPlan at hp
        simp only at hp
        rcases List.mem_map.mp hp with ⟨q, hq, heq⟩
        split at heq
        · rw [← heq]
          first
            | exact (by decide : ("VALID" : String) ∈ PLAN_STATUSES)
            | exact (by decide : ("INVALID" : String) ∈ PLAN_STATUSES)
        · rw [← heq]
          exact hinv q hq
  | submitProgram planId form newId =>
      simp only [step] at hstep
      unfold submit_program at hstep
      repeat' split at hstep
      all_goals simp at hstep
      all_goals
        subst hstep
        unfold setPlan at hp
        simp only at hp
        rcases List.mem_map.mp hp with ⟨q, hq, heq⟩
        split at heq
        · rw [← heq]
          exact (by decide : ("SUBMITTED" : String) ∈ PLAN_STATUSES)
        · rw [← heq]
          exact hinv q hq
  | executeProgram programId =>
      simp only [step] at hstep
      unfold execute_program at hstep
      repeat' split at hstep
      all_goals simp at hstep
      all_goals
        subst hstep
        exact hinv p hp

theorem fallback_ne_nil (base : List String) :
    (if base.isEmpty = true then [simOkMsg] else base) ≠ [] := by
  split
  · simp [simOkMsg]
  · next h => exact fun hc => h (by simp [hc])



theorem run_vtt_eval (plan : SciencePlan) (ok : Bool) (errs : List String) (d : ℚ)
    (hval : validate_science_plan_fields (planPayload plan) = some (ok, errs))
    (hd : durationHours plan = d) :
    run_virtual_telescope_test plan = some (true, advisoryFeedback plan ok errs d) := by
  unfold run_virtual_telescope_test advisoryFeedback
  rw [hval, hd]
  rfl

theorem vtt_messages_ne_nil (plan : SciencePlan) (r : Bool × List String)
    (h : run_virtual_telescope_test plan = some r) : r.2 ≠ [] := by
  unfold run_virtual_telescope_test at h
  cases hval : validate_science_plan_fields (planPayload plan) with
  | none => rw [hval] at h; simp at h
  | some p =>
      rw [hval] at h
      simp only [Option.map_some] at h
      injection h with h
      subst h
      exact fallback_ne_nil _

theorem official_messages_ne_nil (plan : SciencePlan) (r : Bool × List String)
    (h : run_official_validation plan = some r) : r.2 ≠ [] := by
  unfold run_official_validation at h
  cases hval : validate_science_plan_fields (planPayload plan) with
  | none => rw [hval] at h; simp at h
  | some p =>
      obtain ⟨n, _, herrs, hok⟩ := validate_eq_some (planPayload plan) p.1 p.2 hval
      rw [hval] at h
      simp only [Option.map_some'] at h
      injection h with h
      subst h
      split
      · next hc =>
          intro hnil
          have hp2 : p.2 = [] := hnil
          exact hc (by rw [hok, hp2]; rfl)
      · split
        · simp
        · split <;> simp

theorem simulate_plan_aborts (db : DB) (planId : Nat) (now : Int) (plan : SciencePlan)
    (h : getPlan db planId = some plan) :
    simulate_plan planId now db = Except.error HErr.integrityError := by
  obtain ⟨r, hr⟩ : ∃ r, run_virtual_telescope_test plan = some r := ⟨_, rfl⟩
  have hne := vtt_messages_ne_nil plan r hr
  simp only [simulate_plan, h, hr]
  rw [if_neg (fun hc => hne (by simpa using hc))]

theorem validate_plan_aborts (db : DB) (planId : Nat) (now : Int) (plan : SciencePlan)
    (h : getPlan db planId = some plan) :
    validate_plan planId now db = Except.error HErr.integrityError := by
  obtain ⟨r, hr⟩ : ∃ r, run_official_validation plan = some r := ⟨_, rfl⟩
  have hne := official_messages_ne_nil plan r hr
  simp only [validate_plan, h, hr]
  rw [if_neg (fun hc => hne (by simpa using hc))]

theorem find?_append_left (l1 l2 : List SciencePlan) (i : Nat) (plan : SciencePlan)
    (h : l1.find? (fun p => p.id == i) = some plan) :
    (l1 ++ l2).find? (fun p => p.id == i) = some plan := by
  induction l1 with
  | nil => simp at h
  | cons q qs ih =>
      rcases List.find?_cons_eq_some.mp h with ⟨hpq, rfl⟩ | ⟨hnpq, hrest⟩
      · rw [List.cons_append]
        exact List.find?_cons_eq_some.mpr (Or.inl ⟨hpq, rfl⟩)
      · rw [List.cons_append]
        exact List.find?_cons_eq_some.mpr (Or.inr ⟨hnpq, ih hrest⟩)

theorem find?_replace_plan_other (l : List SciencePlan) (i : Nat) (plan p' : SciencePlan)
    (h : l.find? (fun p => p.id == i) = some plan) (hne : p'.id ≠ i) :
    (l.map (fun q => if q.id = p'.id then p' else q)).find? (fun p => p.id == i) =
      some plan := by
  have hpid : plan.id = i := by simpa using List.find?_some h
  induction l with
  | nil => simp at h
  | cons q qs ih =>
      rcases List.find?_cons_eq_some.mp h with ⟨hpq, rfl⟩ | ⟨hnpq, hrest⟩
      · have hq : ¬ q.id = p'.id := fun hqp => hne (hqp.symm.trans hpid)
        rw [List.map_cons, if_neg hq]
        exact List.find?_cons_eq_some.mpr (Or.inl ⟨hpq, rfl⟩)
      · by_cases hq : q.id = p'.id
        · rw [List.map_cons, if_pos hq]
          refine List.find?_cons_eq_some.mpr (Or.inr ⟨?_, ih hrest⟩)
          simp [hne]
        · rw [List.map_cons, if_neg hq]
          exact List.find?_cons_eq_some.mpr (Or.inr ⟨hnpq, ih hrest⟩)

theorem find?_filter_self (l : List SciencePlan) (i : Nat) :
    (l.filter (fun p => p.id != i)).find? (fun p => p.id == i) = none := by
  rw [List.find?_eq_none]
  intro x hx
  have hkeep := (List.mem_filter.mp hx).2
  simpa using hkeep

theorem find?_filter_other (l : List SciencePlan) (i j : Nat) (plan : SciencePlan)
    (h : l.find? (fun p => p.id == i) = some plan) (hne : j ≠ i) :
    (l.filter (fun p => p.id != j)).find? (fun p => p.id == i) = some plan := by
  have hpid : plan.id = i := by simpa using List.find?_some h
  induction l with
  | nil => simp at h
  | cons q qs ih =>
      rcases List.find?_cons_eq_some.mp h with ⟨hpq, rfl⟩ | ⟨hnpq, hrest⟩
      · have hkeep : (q.id != j) = true := by
          simp only [bne_iff_ne, ne_eq]
          exact fun hqj => hne (hqj.symm.trans hpid)
        rw [@List.filter_cons_of_pos _ (fun p => p.id != j) q qs hkeep]
        exact List.find?_cons_eq_some.mpr (Or.inl ⟨hpq, rfl⟩)
      · by_cases hqj : q.id = j
        · rw [@List.filter_cons_of_neg _ (fun p => p.id != j) q qs (by simp [hqj])]
          exact ih hrest
        · rw [@List.filter_cons_of_pos _ (fun p => p.id != j) q qs (by simp [hqj])]
          exact List.find?_cons_eq_some.mpr (Or.inr ⟨hnpq, ih hrest⟩)

theorem step_transitions : ∀ (op : Op) (now : Int) (db db' : DB) (planId : Nat)
    (plan : SciencePlan),
    getPlan db planId = some plan →
    step op now db = Except.ok db' →
    statusOf db' planId = some plan.status ∨
    ((plan.status = "DRAFT" ∨ plan.status = "INVALID") ∧ statusOf db' planId = none) ∨
    ((plan.status = "DRAFT" ∨ plan.status = "INVALID") ∧ statusOf db' planId = some "DRAFT") ∨
    (plan.status = "VALID" ∧ statusOf db' planId = some "SUBMITTED") := by
  intro op now db db' planId plan h hstep
  cases op with
  | createPlan form newId =>
      simp only [step] at hstep
      cases hstar : findStar db form.star_system with
      | none =>
          simp only [create_plan, hstar] at hstep
          split at hstep <;> simp at hstep
      | some star =>
          cases hv : validate_science_plan_fields (formPayload form (some star.id)) with
          | none => simp only [create_plan, hstar, hv] at hstep; simp at hstep
          | some r =>
              simp only [create_plan, hstar, hv] at hstep
              by_cases hr : r.1 = true
              · rw [if_pos hr] at hstep
                injection hstep with hstep
                left
                have hg : getPlan db' planId = some plan := by
                  rw [← hstep]
                  exact find?_append_left db.plans _ planId plan h
                unfold statusOf
                rw [hg]
                rfl
              · rw [if_neg hr] at hstep
                simp at hstep
  | editPlan planId2 form =>
      simp only [step] at hstep
      cases h2 : getPlan db planId2 with
      | none => simp only [edit_plan, h2] at hstep; simp at hstep
      | some plan2 =>
          by_cases hguard : plan2.status ≠ "DRAFT" ∧ plan2.status ≠ "INVALID"
          · simp only [edit_plan, h2, if_pos hguard] at hstep
            simp at hstep
          · cases hstar : findStar db form.star_system with
            | none =>
                simp only [edit_plan, h2, if_neg hguard, hstar] at hstep
                split at hstep <;> simp at hstep
            | some star =>
                cases hv : validate_science_plan_fields (formPayload form (some star.id)) with
                | none =>
                    simp only [edit_plan, h2, if_neg hguard, hstar, hv] at hstep
                    simp at hstep
                | some r =>
                    simp only [edit_plan, h2, if_neg hguard, hstar, hv] at hstep
                    by_cases hr : r.1 = true
                    · rw [if_pos hr] at hstep
                      injection hstep with hstep
                      have hst2 : plan2.status = "DRAFT" ∨ plan2.status = "INVALID" := by
                        rcases not_and_or.mp hguard with hc | hc
                        · exact Or.inl (not_not.mp hc)
                        · exact Or.inr (not_not.mp hc)
                      have hid2 : plan2.id = planId2 := by simpa using List.find?_some h2
                      by_cases hsame : planId2 = planId
                      · subst hsame
                        have heqp : plan2 = plan := by
                          rw [h2] at h
                          exact Option.some.inj h
                        subst heqp
                        refine Or.inr (Or.inr (Or.inl ⟨hst2, ?_⟩))
                        have hg : getPlan db' planId2 =
                            some (applyEdit plan2 form star.id now) := by
                          rw [← hstep]
                          exact find?_replace_plan db.plans planId2 plan2 _ h2 rfl
                        unfold statusOf
                        rw [hg]
                        rfl
                      · left
                        have hg : getPlan db' planId = some plan := by
                          rw [← hstep]
                          refine find?_replace_plan_other db.plans planId plan _ h ?_
                          show plan2.id ≠ planId
                          rw [hid2]
                          exact hsame
                        unfold statusOf
                        rw [hg]
                        rfl
                    · rw [if_neg hr] at hstep
                      simp at hstep
  | deletePlan planId2 =>
      simp only [step] at hstep
      cases h2 : getPlan db planId2 with
      | none => simp only [delete_plan, h2] at hstep; simp at hstep
      | some plan2 =>
          by_cases hguard : plan2.status ≠ "DRAFT" ∧ plan2.status ≠ "INVALID"
          · simp only [delete_plan, h2, if_pos hguard] at hstep
            simp at hstep
          · simp only [delete_plan, h2, if_neg hguard] at hstep
            injection hstep with hstep
            have hst2 : plan2.status = "DRAFT" ∨ plan2.status = "INVALID" := by
              rcases not_and_or.mp hguard with hc | hc
              · exact Or.inl (not_not.mp hc)
              · exact Or.inr (not_not.mp hc)
            by_cases hsame : planId2 = planId
            · subst hsame
              have heqp : plan2 = plan := by
                rw [h2] at h
                exact Option.some.inj h
              subst heqp
              refine Or.inr (Or.inl ⟨hst2, ?_⟩)
              have hg : getPlan db' planId2 = none := by
                rw [← hstep]
                exact find?_filter_self db.plans planId2
              unfold statusOf
              rw [hg]
              rfl
            · left
              have hg : getPlan db' planId = some plan := by
                rw [← hstep]
                exact find?_filter_other db.plans planId planId2 plan h hsame
              unfold statusOf
              rw [hg]
              rfl
  | simulatePlan planId2 =>
      simp only [step] at hstep
      unfold simulate_plan at hstep
      repeat' split at hstep
      all_goals simp at hstep
      all_goals
        subst hstep
        left
        unfold statusOf
        rw [h]
        rfl
  | validatePlan planId2 =>
      simp only [step] at hstep
      cases h2 : getPlan db planId2 with
      | none => simp only [validate_plan, h2] at hstep; simp at hstep
      | some plan2 =>
          cases hro : run_official_validation plan2 with
          | none => simp only [validate_plan, h2, hro] at hstep; simp at hstep
          | some r =>
              have hne := official_messages_ne_nil plan2 r hro
              simp only [validate_plan, h2, hro] at hstep
              rw [if_neg (fun hc => hne (by simpa using hc))] at hstep
              simp at hstep
  | submitProgram planId2 form newId =>
      simp only [step] at hstep
      cases h2 : getPlan db planId2 with
      | none => simp only [submit_program, h2] at hstep; simp at hstep
      | some plan2 =>
          by_cases hg2 : plan2.status ≠ "VALID"
          · simp only [submit_program, h2, if_pos hg2] at hstep
            simp at hstep
          · have hstat : plan2.status = "VALID" := not_not.mp hg2
            simp only [submit_program, h2, if_neg hg2] at hstep
            by_cases hv : (validate_observing_program_fields (programPayload form)).1 = true
            · rw [if_pos hv] at hstep
              injection hstep with hstep
              have hid2 : plan2.id = planId2 := by simpa using List.find?_some h2
              by_cases hsame : planId2 = planId
              · subst hsame
                have heqp : plan2 = plan := by
                  rw [h2] at h
                  exact Option.some.inj h
                subst heqp
                refine Or.inr (Or.inr (Or.inr ⟨hstat, ?_⟩))
                have hg : getPlan db' planId2 =
                    some { plan2 with status := "SUBMITTED", updated_at := now } := by
                  rw [← hstep]
                  exact find?_replace_plan db.plans planId2 plan2 _ h2 rfl
                unfold statusOf
                rw [hg]
                rfl
              · left
                have hg : getPlan db' planId = some plan := by
                  rw [← hstep]
                  refine find?_replace_plan_other db.plans planId plan _ h ?_
                  show plan2.id ≠ planId
                  rw [hid2]
                  exact hsame
                unfold statusOf
                rw [hg]
                rfl
            · rw [if_neg hv] at hstep
              simp at hstep
  | executeProgram programId =>
      simp only [step] at hstep
      cases hp : getProgram db programId with
      | none => simp only [execute_program, hp] at hstep; simp at hstep
      | some prog =>
          simp only [execute_program, hp] at hstep
          injection hstep with hstep
          left
          have hg : getPlan db' planId = some plan := by
            rw [← hstep]
            exact h
          unfold statusOf
          rw [hg]
          rfl

/-!
## Claims

One theorem per claim of the specification, with counterexamples where the
code deviates from it and witnesses instantiating every proved hypothesis.
-/

/-- C1: the plan status only ever moves along the lifecycle table — every
operation keeps statuses inside \x7bDRAFT, INVALID, VALID, SUBMITTED\x7d, and a
committed request leaves each plan's status unchanged, removes the plan
(delete, legal only from DRAFT/INVALID), resets it to DRAFT (edit, only
from DRAFT/INVALID) or advances VALID to SUBMITTED (submit).  In
particular a SUBMITTED plan's status is never changed by any operation:
the unguarded validate endpoint always aborts at commit (its
`ValidationResult` insert violates the NOT NULL `is_valid` column), so
even it cannot rewrite a SUBMITTED plan, and SUBMITTED is terminal. -/
theorem c1_lifecycle_conformance :
    (∀ (op : Op) (now : Int) (db db' : DB),
       (∀ p ∈ db.plans, p.status ∈ PLAN_STATUSES) →
       step op now db = Except.ok db' →
       ∀ p ∈ db'.plans, p.status ∈ PLAN_STATUSES) ∧
    (∀ (op : Op) (now : Int) (db db' : DB) (planId : Nat) (plan : SciencePlan),
       getPlan db planId = some plan →
       step op now db = Except.ok db' →
       statusOf db' planId = some plan.status ∨
       ((plan.status = "DRAFT" ∨ plan.status = "INVALID") ∧
         statusOf db' planId = none) ∨
       ((plan.status = "DRAFT" ∨ plan.status = "INVALID") ∧
         statusOf db' planId = some "DRAFT") ∨
       (plan.status = "VALID" ∧ statusOf db' planId = some "SUBMITTED")) ∧
    (∀ (op : Op) (now : Int) (db db' : DB) (planId : Nat) (plan : SciencePlan),
       getPlan db planId = some plan → plan.status = "SUBMITTED" →
       step op now db = Except.ok db' →
       statusOf db' planId = some "SUBMITTED") := by
  refine ⟨step_status_invariant, step_transitions, ?_⟩
  intro op now db db' planId plan h hsub hstep
  rcases step_transitions op now db db' planId plan h hstep with
    h1 | ⟨h2, _⟩ | ⟨h2, _⟩ | ⟨h2, _⟩
  · rw [h1, hsub]
  · rcases h2 with h2 | h2 <;> exact absurd (h2.symm.trans hsub) (by decide)
  · rcases h2 with h2 | h2 <;> exact absurd (h2.symm.trans hsub) (by decide)
  · exact absurd (h2.symm.trans hsub) (by decide)

/-- C1, witness: terminality applied to a concrete committed request — an
execute against `cDBprog` leaves its SUBMITTED plan SUBMITTED. -/
theorem c1_lifecycle_conformance_witness :
    statusOf cDBprog 1 = some "SUBMITTED" :=
  c1_lifecycle_conformance.2.2 (Op.executeProgram 1) 0 cDBprog cDBprog 1
    { basePlan with status := "SUBMITTED" } (by decide) (by decide) (by decide)

/-- C2, counterexample: simulating the SUBMITTED plan of `cDBsub` does
fail and mutates nothing, but not with the claimed guard violation: the
failure is the IntegrityError of inserting the advisor's messages as
`ValidationResult` rows without the required NOT NULL `is_valid`
column. -/
theorem c2_simulate_fails_without_guard :
    statusOf cDBsub 1 = some "SUBMITTED" ∧
    simulate_plan 1 5 cDBsub = Except.error HErr.integrityError ∧
    HErr.integrityError ≠ HErr.statusGuard :=
  ⟨by decide,
   simulate_plan_aborts cDBsub 1 5 { basePlan with status := "SUBMITTED" } (by decide),
   by decide⟩

/-- C2 (amended): simulate on any existing plan — SUBMITTED included —
fails and mutates no record, but the failure is the unhandled
IntegrityError of the audit-row insert (NOT NULL `is_valid` omitted), not
a guard violation; a missing plan id gives NotFound, and a simulate
request that did commit would leave the store exactly as it was. -/
theorem c2_simulate_integrity_failure :
    (∀ (db : DB) (planId : Nat) (now : Int),
       getPlan db planId = none →
       simulate_plan planId now db = Except.error HErr.notFound) ∧
    (∀ (db : DB) (planId : Nat) (now : Int) (plan : SciencePlan),
       getPlan db planId = some plan →
       simulate_plan planId now db = Except.error HErr.integrityError) ∧
    (∀ (db : DB) (planId : Nat) (now : Int) (db' : DB),
       simulate_plan planId now db = Except.ok db' → db' = db) := by
  refine ⟨?_, ?_, ?_⟩
  · intro db planId now h
    simp only [simulate_plan, h]
  · intro db planId now plan h
    exact simulate_plan_aborts db planId now plan h
  · intro db planId now db' h
    unfold simulate_plan at h
    repeat' split at h
    all_goals simp at h
    exact h.symm

/-- C2, witness: the integrity failure applied to the concrete SUBMITTED
store. -/
theorem c2_simulate_integrity_failure_witness :
    simulate_plan 1 5 cDBsub = Except.error HErr.integrityError :=
  c2_simulate_integrity_failure.2.1 cDBsub 1 5
    { basePlan with status := "SUBMITTED" } (by decide)


/-- C3, counterexample: executing the already Completed program of
`cDBprog` does not fail — it succeeds (re-setting the same status), so
re-execution is reported as success, contradicting the claim. -/
theorem c3_completed_reexecution_succeeds :
    cProg.status = "Completed" ∧ execute_program 1 cDBprog = Except.ok cDBprog := by decide

/-- C3 (amended): executing a nonexistent program id fails with NotFound;
executing any existing program — even one already Completed — succeeds and
sets its status to Completed. -/
theorem c3_execute_behaviour :
    (∀ (db : DB) (programId : Nat), getProgram db programId = none →
       execute_program programId db = Except.error HErr.notFound) ∧
    (∀ (db : DB) (programId : Nat) (prog : ObservingProgram),
       getProgram db programId = some prog →
       ∃ db', execute_program programId db = Except.ok db' ∧
         getProgram db' programId = some { prog with status := "Completed" }) := by
  constructor
  · intro db programId h
    simp only [execute_program, h]
  · intro db programId prog h
    simp only [execute_program, h]
    refine ⟨_, rfl, ?_⟩
    exact find?_complete_prog db.programs programId prog h

/-- C3, witness: executing a missing program id is a NotFound failure. -/
theorem c3_execute_behaviour_witness :
    execute_program 99 cDBsub = Except.error HErr.notFound :=
  c3_execute_behaviour.1 cDBsub 99 (by decide)

/-- C4, counterexample: a payload whose funding is the negative decimal -1
(and is otherwise fully valid) passes field validation with no violation
at all, so the claimed non-negativity check does not exist in the code. -/
theorem c4_negative_funding_accepted :
    pyFloat (pyGet (planPayload cPlanNeg) "funding") = some (-1) ∧
    ((-1 : ℚ) < 0) ∧
    validate_science_plan_fields (planPayload cPlanNeg) = some (true, []) := by
  decide

/-- C4 (amended): the validator checks only that funding parses as a
decimal: the funding violation is reported exactly when `float()` fails on
the funding value, and never for a parsed (possibly negative) decimal. -/
theorem c4_funding_parse_only (data : Payload) (ok : Bool) (errs : List String)
    (h : validate_science_plan_fields data = some (ok, errs)) :
    ("Funding must be a decimal number." ∈ errs ↔
      pyFloat (pyGet data "funding") = none) := by
  obtain ⟨n, _, herrs, _⟩ := validate_eq_some data ok errs h
  subst herrs
  exact fundingMsg_mem_iff data n

/-- C4, witness: with the funding key removed the parse fails and the
violation is reported. -/
theorem c4_funding_parse_only_witness :
    "Funding must be a decimal number." ∈
      ["Missing required field: funding", "Funding must be a decimal number."] :=
  (c4_funding_parse_only cDataNoFund false
      ["Missing required field: funding", "Funding must be a decimal number."]
      (by decide)).mpr (by decide)

/-- C5: official validation short-circuits — field violations are returned
as-is; otherwise exposure above 45 rejects regardless of funding, then
funding below 500 rejects, then the single approval message is returned. -/
theorem c5_official_validation_order (plan : SciencePlan) (ok : Bool) (errs : List String)
    (h : validate_science_plan_fields (planPayload plan) = some (ok, errs)) :
    (ok = false → run_official_validation plan = some (false, errs)) ∧
    (ok = true → plan.exposure > 45 →
      run_official_validation plan = some (false,
        ["Exposure exceeds maximum allowed operational limit (45)."])) ∧
    (ok = true → plan.exposure ≤ 45 → plan.funding < 500 →
      run_official_validation plan = some (false,
        ["Funding below minimum requirement for approval."])) ∧
    (ok = true → plan.exposure ≤ 45 → 500 ≤ plan.funding →
      run_official_validation plan = some (true, ["Plan meets all validation criteria."])) := by
  refine ⟨?_, ?_, ?_, ?_⟩
  · intro hok
    subst hok
    simp [run_official_validation, h]
  · intro hok hexp
    subst hok
    simp [run_official_validation, h, hexp]
  · intro hok hexp hfund
    subst hok
    simp [run_official_validation, h, not_lt.mpr hexp, hfund]
  · intro hok hexp hfund
    subst hok
    simp [run_official_validation, h, not_lt.mpr hexp, not_lt.mpr hfund]

/-- C5, witness: the spec scenario — exposure 46, funding 2000, otherwise
fully valid — yields exactly the exposure-limit rejection. -/
theorem c5_official_validation_order_witness :
    validate_science_plan_fields (planPayload cPlan46) = some (true, []) ∧
    run_official_validation cPlan46 =
      some (false, ["Exposure exceeds maximum allowed operational limit (45)."]) :=
  ⟨by decide, (c5_official_validation_order cPlan46 true [] (by decide)).2.1 rfl (by decide)⟩

/-- C6: submission against a non-VALID plan fails as a status-guard
violation (no commit, hence no program row and no plan change); against a
VALID plan with a field-valid program payload it commits exactly one new
"Pending Review" program together with the VALID → SUBMITTED transition,
in one request. -/
theorem c6_submit_guard_and_atomicity :
    (∀ (db : DB) (planId : Nat) (form : ProgramForm) (now : Int) (newId : Nat)
       (plan : SciencePlan), getPlan db planId = some plan →
       plan.status ≠ "VALID" →
       submit_program planId form now newId db = Except.error HErr.statusGuard) ∧
    (∀ (db : DB) (planId : Nat) (form : ProgramForm) (now : Int) (newId : Nat)
       (plan : SciencePlan) (errs : List String), getPlan db planId = some plan →
       plan.status = "VALID" →
       validate_observing_program_fields (programPayload form) = (true, errs) →
       ∃ db', submit_program planId form now newId db = Except.ok db' ∧
         db'.programs = db.programs ++ [mkProgram planId form newId now] ∧
         (mkProgram planId form newId now).status = "Pending Review" ∧
         getPlan db' planId = some { plan with status := "SUBMITTED", updated_at := now } ∧
         db'.results = db.results) := by
  constructor
  · intro db planId form now newId plan h hne
    simp only [submit_program, h]
    rw [if_pos hne]
  · intro db planId form now newId plan errs h hstat hval
    have hguard : ¬ plan.status ≠ "VALID" := by simp [hstat]
    simp only [submit_program, h, hval, if_neg hguard]
    refine ⟨_, rfl, rfl, rfl, ?_, rfl⟩
    exact getPlan_setPlan db planId plan _ h rfl

/-- C6, witness: submitting against the SUBMITTED plan of `cDBsub` is a
guard failure. -/
theorem c6_submit_guard_witness :
    submit_program 1 cForm 7 2 cDBsub = Except.error HErr.statusGuard :=
  c6_submit_guard_and_atomicity.1 cDBsub 1 cForm 7 2
    { basePlan with status := "SUBMITTED" } (by decide) (by decide)

/-- C7: editing a VALID or SUBMITTED plan fails as a status-guard
violation with no commit; editing a DRAFT or INVALID plan whose new fields
validate cleanly persists the new values and resets the status to DRAFT. -/
theorem c7_edit_guard_and_reset :
    (∀ (db : DB) (planId : Nat) (form : PlanForm) (now : Int) (plan : SciencePlan),
       getPlan db planId = some plan →
       (plan.status = "VALID" ∨ plan.status = "SUBMITTED") →
       edit_plan planId form now db = Except.error HErr.statusGuard) ∧
    (∀ (db : DB) (planId : Nat) (form : PlanForm) (now : Int) (plan : SciencePlan)
       (star : StarSystem) (errs : List String),
       getPlan db planId = some plan →
       (plan.status = "DRAFT" ∨ plan.status = "INVALID") →
       findStar db form.star_system = some star →
       validate_science_plan_fields (formPayload form (some star.id)) = some (true, errs) →
       edit_plan planId form now db = Except.ok (setPlan db (applyEdit plan form star.id now)) ∧
       (applyEdit plan form star.id now).status = "DRAFT" ∧
       getPlan (setPlan db (applyEdit plan form star.id now)) planId =
         some (applyEdit plan form star.id now)) := by
  constructor
  · intro db planId form now plan h hst
    have hguard : plan.status ≠ "DRAFT" ∧ plan.status ≠ "INVALID" := by
      rcases hst with hst | hst <;> simp [hst]
    simp only [edit_plan, h]
    rw [if_pos hguard]
  · intro db planId form now plan star errs h hst hstar hval
    have hguard : ¬ (plan.status ≠ "DRAFT" ∧ plan.status ≠ "INVALID") := by
      rcases hst with hst | hst <;> simp [hst]
    simp only [edit_plan, h, hstar, hval, if_neg hguard]
    refine ⟨rfl, rfl, ?_⟩
    exact getPlan_setPlan db planId plan _ h rfl

/-- C7, witness: editing the SUBMITTED plan of `cDBsub` is a guard
failure. -/
theorem c7_edit_guard_witness :
    edit_plan 1 cPlanForm 7 cDBsub = Except.error HErr.statusGuard :=
  c7_edit_guard_and_reset.1 cDBsub 1 cPlanForm 7
    { basePlan with status := "SUBMITTED" } (by decide) (Or.inr (by decide))

/-- C8: the advisor never returns an empty message list; when field
validation passes, each of the four advisories appears in the feedback
exactly when its own condition holds (they are independent, so several can
fire together), and when none fires the feedback is exactly the single
no-issues message; the simulate request never touches the plan rows. -/
theorem c8_simulation_advisor :
    (∀ plan r, run_virtual_telescope_test plan = some r → r.2 ≠ []) ∧
    (∀ plan errs r, validate_science_plan_fields (planPayload plan) = some (true, errs) →
       run_virtual_telescope_test plan = some r →
       ((¬ (plan.exposure > 40 ∧ plan.image_mode = "Color") ∧
         ¬ (plan.brightness < 5 ∧ plan.contrast < 5) ∧
         ¬ (durationHours plan > 12) ∧ ¬ (plan.funding < 1000)) → r.2 = [simOkMsg]) ∧
       (warnExposureColor ∈ r.2 ↔ (plan.exposure > 40 ∧ plan.image_mode = "Color")) ∧
       (warnClarity ∈ r.2 ↔ (plan.brightness < 5 ∧ plan.contrast < 5)) ∧
       (warnDuration ∈ r.2 ↔ durationHours plan > 12) ∧
       (warnFunding ∈ r.2 ↔ plan.funding < 1000)) ∧
    (∀ db planId now db', simulate_plan planId now db = Except.ok db' →
       db'.plans = db.plans ∧ db'.programs = db.programs) := by
  refine ⟨?_, ?_, ?_⟩
  · intro plan r h
    unfold run_virtual_telescope_test at h
    cases hval : validate_science_plan_fields (planPayload plan) with
    | none => rw [hval] at h; simp at h
    | some p =>
        rw [hval] at h
        simp only [Option.map_some] at h
        injection h with h
        subst h
        exact fallback_ne_nil _
  · intro plan errs r hval h
    unfold run_virtual_telescope_test at h
    rw [hval] at h
    simp only [Option.map_some] at h
    injection h with h
    subst h
    by_cases h1 : plan.exposure > 40 ∧ plan.image_mode = "Color" <;>
      by_cases h2 : plan.brightness < 5 ∧ plan.contrast < 5 <;>
        by_cases h3 : durationHours plan > 12 <;>
          by_cases h4 : plan.funding < 1000 <;>
            simp_all [warnExposureColor, warnClarity, warnDuration, warnFunding, simOkMsg]
  · intro db planId now db' h
    unfold simulate_plan at h
    repeat' split at h
    all_goals simp at h
    subst h
    exact ⟨rfl, rfl⟩

/-- C8, witness: the spec scenario — exposure 42 with Color mode — makes
the sensor-saturation advisory fire. -/
theorem c8_simulation_advisor_witness :
    validate_science_plan_fields (planPayload cPlanSim) = some (true, []) ∧
    warnExposureColor ∈ [warnExposureColor] :=
  ⟨by decide,
   ((c8_simulation_advisor.2.1 cPlanSim [] (true, [warnExposureColor]) (by decide)
     (by rw [run_vtt_eval cPlanSim true [] 1 (by decide)
               (by norm_num [durationHours, cPlanSim, basePlan])]
         decide)).2.1).mpr
     (by decide)⟩

/-- C9: for every dial field holding an integer, the specific
range-violation message for that field is reported exactly when the value
lies outside [0,50]; the boundary values 0 and 50 produce no violation and
the four checks are independent of one another. -/
theorem c9_dial_ranges (data : Payload) (f : String) (v : Int) (ok : Bool)
    (errs : List String)
    (hf : f ∈ DIAL_FIELDS) (hv : pyGet data f = Value.int v)
    (h : validate_science_plan_fields data = some (ok, errs)) :
    ((pyCapitalize f ++ " must be between 0 and 50.") ∈ errs ↔ (v < 0 ∨ v > 50)) := by
  obtain ⟨n, _, herrs, _⟩ := validate_eq_some data ok errs h
  subst herrs
  exact betweenMsg_mem_iff data f v n hf hv

/-- C9, witness: a payload with exposure -1 and contrast 51 reports both
dial violations at once, and no brightness violation. -/
theorem c9_dial_ranges_witness :
    "Exposure must be between 0 and 50." ∈
      ["Exposure must be between 0 and 50.", "Contrast must be between 0 and 50."] ∧
    "Contrast must be between 0 and 50." ∈
      ["Exposure must be between 0 and 50.", "Contrast must be between 0 and 50."] ∧
    "Brightness must be between 0 and 50." ∉
      ["Exposure must be between 0 and 50.", "Contrast must be between 0 and 50."] :=
  ⟨(c9_dial_ranges (planPayload cPlanDials) "exposure" (-1) false
      ["Exposure must be between 0 and 50.", "Contrast must be between 0 and 50."]
      (by decide) (by decide) (by decide)).mpr (by decide),
   (c9_dial_ranges (planPayload cPlanDials) "contrast" 51 false
      ["Exposure must be between 0 and 50.", "Contrast must be between 0 and 50."]
      (by decide) (by decide) (by decide)).mpr (by decide),
   fun hmem =>
     absurd ((c9_dial_ranges (planPayload cPlanDials) "brightness" 10 false
      ["Exposure must be between 0 and 50.", "Contrast must be between 0 and 50."]
      (by decide) (by decide) (by decide)).mp hmem) (by decide)⟩

/-- C10: when an enum-checked field (telescope location, file type, file
quality or image mode) is missing or empty, the validator reports both the
missing-required-field violation and that field's invalid-value violation
— the enum check runs on the absent value instead of being skipped. -/
theorem c10_enum_double_violation : ∀ (data : Payload) (f msg : String) (ok : Bool)
    (errs : List String),
    (f, msg) ∈ ENUM_CHECKS →
    missingField data f = true →
    validate_science_plan_fields data = some (ok, errs) →
    ("Missing required field: " ++ f) ∈ errs ∧ msg ∈ errs := by
  intro data f msg ok errs hpair hmiss hval
  obtain ⟨n, _, herrs, _⟩ := validate_eq_some data ok errs hval
  subst herrs
  fin_cases hpair <;>
  · constructor
    · unfold planFieldErrors
      simp only [List.mem_append]
      exact Or.inl (Or.inl (Or.inl (Or.inl (Or.inl
        (missingErrors_intro data _ (by decide) hmiss)))))
    · unfold planFieldErrors
      simp only [List.mem_append]
      refine Or.inl (Or.inl (Or.inl (Or.inr ?_)))
      unfold enumErrors
      rw [missingField_not_enum data _ _ hmiss (by decide)]
      simp

/-- C10, witness: a payload missing `telescope_location` reports both the
missing-field and the invalid-location violations. -/
theorem c10_enum_double_violation_witness :
    ("Missing required field: " ++ "telescope_location") ∈
      ["Missing required field: telescope_location", "Invalid telescope location."] ∧
    "Invalid telescope location." ∈
      ["Missing required field: telescope_location", "Invalid telescope location."] :=
  c10_enum_double_violation cData10 "telescope_location" "Invalid telescope location." false
    ["Missing required field: telescope_location", "Invalid telescope location."]
    (by decide) (by decide) (by decide)
